import Mathlib

set_option maxRecDepth 8192

/-!
Verification of the LlamaTokenizerFast adapter
(`src/transformers/models/llama/tokenization_llama_fast.py`).

The development shallowly embeds the class: tokenizer instances become a
Lean structure, attribute mutation becomes explicit state passing, the
external tokenization engine's `encode` is an abstract function parameter,
and the file system operations used by `save_vocabulary` are an abstract
record of functions.
-/

namespace LlamaFast

/-- Python string repetition `s * n`. -/
def strMul (s : String) : Nat → String
  | 0 => ""
  | n + 1 => s ++ strMul s n

/-- Python implicit conversion of `bool` to `int` (`True = 1`, `False = 0`),
as used in `(bos+':0 ') * self.add_bos_token`. -/
def pyBool (b : Bool) : Nat := if b then 1 else 0

/-- The template installed by `processors.TemplateProcessing(single=..., pair=...,
special_tokens=...)`: the post-processor state of the external engine. -/
structure PostProcessorTemplate where
  single : String
  pair : String
  special_tokens : List (String × Nat)
deriving DecidableEq, Repr

/-- The instance state of `LlamaTokenizerFast` read and written by the methods
under verification.  `bos_token`/`eos_token` and their ids, the two boolean
flags and the installed post-processor come from `update_post_processor` and
the property setters; the twelve `*_message_*` fields and
`add_special_tokens` are the instance attributes read by
`_build_conversation_input_ids`; `vocab_file` and `can_save_slow_tokenizer`
are read by `save_vocabulary`. -/
structure Tokenizer where
  bos_token : String
  eos_token : String
  bos_token_id : Nat
  eos_token_id : Nat
  add_bos_token : Bool
  add_eos_token : Bool
  post_processor : PostProcessorTemplate
  system_message_start : String
  system_message_end : String
  user_message_start : String
  user_message_end : String
  assistant_message_start : String
  assistant_message_end : String
  system_message_start_token : Nat
  system_message_end_token : Nat
  user_message_start_token : Nat
  user_message_end_token : Nat
  assistant_message_start_token : Nat
  assistant_message_end_token : Nat
  add_special_tokens : Bool
  vocab_file : Option String
  can_save_slow_tokenizer : Bool
deriving DecidableEq

/-- The template computed by `update_post_processor` from the current
`bos_token`, `eos_token`, their ids and the two flags (lines 138-158):

    single = f"{(bos+':0 ') * add_bos_token}$A:0{(' '+eos+':0') * add_eos_token}"
    pair   = f"{single}{(' '+bos+':1') * add_bos_token} $B:1{(' '+eos+':1') * add_eos_token}"

with the special-token list built by two conditional appends. -/
def mkTemplate (t : Tokenizer) : PostProcessorTemplate :=
  let bos := t.bos_token
  let bos_token_id := t.bos_token_id
  let eos := t.eos_token
  let eos_token_id := t.eos_token_id
  let single :=
    strMul (bos ++ ":0 ") (pyBool t.add_bos_token) ++ "$A:0" ++
      strMul (" " ++ eos ++ ":0") (pyBool t.add_eos_token)
  let pair :=
    single ++ strMul (" " ++ bos ++ ":1") (pyBool t.add_bos_token) ++ " $B:1" ++
      strMul (" " ++ eos ++ ":1") (pyBool t.add_eos_token)
  let st0 : List (String × Nat) := []
  let st1 := if t.add_bos_token then st0 ++ [(bos, bos_token_id)] else st0
  let st2 := if t.add_eos_token then st1 ++ [(eos, eos_token_id)] else st1
  { single := single, pair := pair, special_tokens := st2 }

/-- `update_post_processor`: recompute the template from the current state and
install it into the engine (`self._tokenizer.post_processor = ...`). -/
def update_post_processor (t : Tokenizer) : Tokenizer :=
  { t with post_processor := mkTemplate t }

/-- The `add_bos_token` property setter: store the new boolean, then re-invoke
`update_post_processor`. -/
def set_add_bos_token (t : Tokenizer) (value : Bool) : Tokenizer :=
  update_post_processor { t with add_bos_token := value }

/-- The `add_eos_token` property setter: store the new boolean, then re-invoke
`update_post_processor`. -/
def set_add_eos_token (t : Tokenizer) (value : Bool) : Tokenizer :=
  update_post_processor { t with add_eos_token := value }

/-- Helper: a tokenizer state with given tokens, ids and flags; the remaining
fields are fixed defaults (they are not read by `update_post_processor`). -/
def mkTok (bos eos : String) (bosId eosId : Nat) (abos aeos : Bool) : Tokenizer :=
  { bos_token := bos, eos_token := eos, bos_token_id := bosId, eos_token_id := eosId
    add_bos_token := abos, add_eos_token := aeos
    post_processor := { single := "", pair := "", special_tokens := [] }
    system_message_start := "<<SYS>>\n", system_message_end := "\n<</SYS>>\n\n"
    user_message_start := "[INST] ", user_message_end := " [/INST]"
    assistant_message_start := " ", assistant_message_end := " "
    system_message_start_token := 0, system_message_end_token := 0
    user_message_start_token := 0, user_message_end_token := 0
    assistant_message_start_token := 0, assistant_message_end_token := 0
    add_special_tokens := false, vocab_file := none, can_save_slow_tokenizer := false }

/-- `DEFAULT_SYSTEM_PROMPT` (lines 40-45), transcribed piece by piece from the
physical source lines of the triple-quoted Python literal: a trailing
backslash continues the line without a newline, and the blank line in the
middle contributes the second newline. -/
def DEFAULT_SYSTEM_PROMPT : String :=
  "You are a helpful, respectful and honest assistant. Always answer as helpfully as possible, while being safe. Your " ++
  "answers should not include any harmful, unethical, racist, sexist, toxic, dangerous, or illegal content. Please ensure" ++
  " that your responses are socially unbiased and positive in nature.\n" ++
  "\n" ++
  "If a question does not make any sense, or is not factually coherent, explain why instead of answering something not " ++
  "correct. If you don\x27t know the answer to a question, please don\x27t share false information."

/-- One entry of `conversation.messages`: a dict with keys `role` and
`message`. -/
structure Message where
  role : String
  message : String
deriving DecidableEq, Repr

/-- The `ChatConversation` argument of `_build_conversation_input_ids`, as the
method uses it: its mutable `messages` list. -/
structure ChatConversation where
  messages : List Message
deriving DecidableEq, Repr

/-- Condition of line 222: `len(conversation.messages) == 0 or
conversation.messages[0]["role"] != "system"`. -/
def needsDefaultSystemPrompt (conv : ChatConversation) : Bool :=
  match conv.messages with
  | [] => true
  | m :: _ => m.role ≠ "system"

/-- The message list after the preprocessing of lines 222-224: the default
system message is prepended when the conversation is empty or does not start
with a system message. -/
def messagesAfterDefault (conv : ChatConversation) : List Message :=
  if needsDefaultSystemPrompt conv then
    { role := "system", message := DEFAULT_SYSTEM_PROMPT } :: conv.messages
  else conv.messages

/-- Python extended slice `l[::2]`: the elements at even positions. -/
def everyOther {α : Type} : List α → List α
  | [] => []
  | [a] => [a]
  | a :: _ :: rest => a :: everyOther rest

/-- The role-alternation check of lines 228-230:
`all(role == "user" for role in message_roles[::2])` and
`all(role == "assistant" for role in message_roles[1::2])`, where
`message_roles` are the roles of the messages after the system message. -/
def rolesValid (message_roles : List String) : Bool :=
  (everyOther message_roles).all (fun role => role == "user") &&
    (everyOther (message_roles.drop 1)).all (fun role => role == "assistant")

/-- The `ValueError` message raised on a role-alternation violation
(lines 232-234). -/
def alternationErrorMsg : String :=
  "LLaMA only supports \x27user\x27 and \x27assistant\x27 roles after the system message, starting with user and alternating (u/a/u/a/u...)"

/-- The role dispatch of lines 240-254: the `(message_start, message_end,
message_start_token, message_end_token)` quadruple for a role.  For a role
outside the three known ones the if/elif chain leaves the four local
variables unbound and the loop body raises `UnboundLocalError`; that case is
`none` here (it is unreachable once `rolesValid` has passed, since the first
message is always a system message at this point). -/
def selectMessageParams (t : Tokenizer) (role : String) :
    Option (String × String × Nat × Nat) :=
  if role == "user" then
    some (t.user_message_start, t.user_message_end,
      t.user_message_start_token, t.user_message_end_token)
  else if role == "system" then
    some (t.system_message_start, t.system_message_end,
      t.system_message_start_token, t.system_message_end_token)
  else if role == "assistant" then
    some (t.assistant_message_start, t.assistant_message_end,
      t.assistant_message_start_token, t.assistant_message_end_token)
  else none

/-- The per-message body of the loop of lines 239-258:
`message = "".join([message_start, message["message"].strip(), message_end])`,
`tokenized_message = self.encode(message, add_special_tokens=self.add_special_tokens)`,
then `[message_start_token] + tokenized_message + [message_end_token]`.
Python's `str.strip()` is embedded as `String.trim`. -/
def encodeDialogMessage (encode : String → Bool → List Nat) (t : Tokenizer)
    (m : Message) : Option (List Nat) :=
  match selectMessageParams t m.role with
  | none => none
  | some (message_start, message_end, message_start_token, message_end_token) =>
    let wrapped := message_start ++ m.message.trim ++ message_end
    let tokenized_message := encode wrapped t.add_special_tokens
    some ([message_start_token] ++ tokenized_message ++ [message_end_token])

/-- The accumulation loop of lines 236-258: `dialog_tokens` starts empty and
each message's ids are appended with `extend`; `none` models the
`UnboundLocalError` crash on an unknown role. -/
def buildLoop (encode : String → Bool → List Nat) (t : Tokenizer) :
    List Message → List Nat → Option (List Nat)
  | [], dialog_tokens => some dialog_tokens
  | m :: rest, dialog_tokens =>
    match encodeDialogMessage encode t m with
    | none => none
    | some ids => buildLoop encode t rest (dialog_tokens ++ ids)

/-- Outcome of `_build_conversation_input_ids`: normal return, the
`ValueError` of the role validation, or an uncaught exception
(`UnboundLocalError` on an unknown role inside the loop — proven
unreachable). -/
inductive BuildResult where
  | ok (ids : List Nat)
  | valueError (msg : String)
  | uncaught
deriving DecidableEq, Repr

/-- Line 226: `message_roles = [message["role"] for message in
conversation.messages[1:]]`, on the conversation as mutated by the
preprocessing step. -/
def messageRoles (conv : ChatConversation) : List String :=
  ((messagesAfterDefault conv).drop 1).map Message.role

/-- `_build_conversation_input_ids` (lines 197-259), with the engine's
`encode` abstract.  The method mutates `conversation.messages` in place
(line 224) before validating, so the embedding threads the conversation
state explicitly: the first component of the result is the conversation
object as the caller observes it after the call, whether the call returned
normally or raised. -/
def build_conversation_input_ids (encode : String → Bool → List Nat)
    (t : Tokenizer) (conv : ChatConversation) :
    ChatConversation × BuildResult :=
  let msgs := messagesAfterDefault conv
  let convSeen : ChatConversation := { messages := msgs }
  let result : BuildResult :=
    if rolesValid (messageRoles conv) then
      match buildLoop encode t msgs [] with
      | some dialog_tokens => .ok dialog_tokens
      | none => .uncaught
    else .valueError alternationErrorMsg
  (convSeen, result)

/-- Spec-side (§4.2 step 3): the role-specific start-text.  Total in the
role; roles outside the three known ones never reach the encoding loop. -/
def roleStartText (t : Tokenizer) (role : String) : String :=
  if role == "user" then t.user_message_start
  else if role == "system" then t.system_message_start
  else if role == "assistant" then t.assistant_message_start
  else ""

/-- Spec-side (§4.2 step 3): the role-specific end-text. -/
def roleEndText (t : Tokenizer) (role : String) : String :=
  if role == "user" then t.user_message_end
  else if role == "system" then t.system_message_end
  else if role == "assistant" then t.assistant_message_end
  else ""

/-- Spec-side (§4.2 step 3): the role-specific start-token-id. -/
def roleStartToken (t : Tokenizer) (role : String) : Nat :=
  if role == "user" then t.user_message_start_token
  else if role == "system" then t.system_message_start_token
  else if role == "assistant" then t.assistant_message_start_token
  else 0

/-- Spec-side (§4.2 step 3): the role-specific end-token-id. -/
def roleEndToken (t : Tokenizer) (role : String) : Nat :=
  if role == "user" then t.user_message_end_token
  else if role == "system" then t.system_message_end_token
  else if role == "assistant" then t.assistant_message_end_token
  else 0

/-- Spec-side description of one message's contribution (§4.2 step 3): the
role-specific start-token-id, then the engine encoding of
start-text + trimmed message text + end-text, then the role-specific
end-token-id. -/
def perMessageIdsSpec (encode : String → Bool → List Nat) (t : Tokenizer)
    (m : Message) : List Nat :=
  [roleStartToken t m.role] ++
    encode (roleStartText t m.role ++ m.message.trim ++ roleEndText t m.role)
      t.add_special_tokens ++
    [roleEndToken t m.role]

/- ------------------------------------------------------------------ -/
/- save_vocabulary                                                     -/
/- ------------------------------------------------------------------ -/

/-- The file-system operations `save_vocabulary` calls, abstracted:
`os.path.isdir`, `os.path.abspath` and `os.path.join`. -/
structure OSModel where
  isdir : String → Bool
  abspath : String → String
  joinPath : String → String → String

/-- Return value of `save_vocabulary`: the raised `ValueError`, the bare
`return` (Python `None`) after the directory check fails, or the returned
tuple of paths. -/
inductive SaveResult where
  | raised (msg : String)
  | returnedNone
  | returned (paths : List String)
deriving DecidableEq, Repr

/-- Observable outcome of `save_vocabulary`: its return/raise behaviour, the
`copyfile` call it performed (if any), and the messages passed to
`logger.error`. -/
structure SaveOutcome where
  result : SaveResult
  copied : Option (String × String)
  logged : List String
deriving DecidableEq, Repr

/-- The `ValueError` message of lines 180-183 (two adjacent Python string
literals). -/
def cannotSaveMsg : String :=
  "Your fast tokenizer does not have the necessary information to save the vocabulary for a slow " ++
  "tokenizer."

/-- `VOCAB_FILES_NAMES["vocab_file"]` (line 37). -/
def vocabFileName : String := "tokenizer.model"

/-- `can_save_slow_tokenizer` as `__init__` derives it (line 136):
`False if not self.vocab_file else True`; Python `None` and the empty
string are both falsy. -/
def canSaveSlowTokenizer : Option String → Bool
  | none => false
  | some s => !s.isEmpty

/-- `(filename_prefix + "-" if filename_prefix else "")` of line 189; the
empty string is falsy. -/
def prefixPart : Option String → String
  | none => ""
  | some p => if p.isEmpty then "" else p ++ "-"

/-- `save_vocabulary` (lines 178-195) over the abstract file system.
`vf` is `self.vocab_file`; `can_save_slow_tokenizer` is derived from it as
in `__init__`.  Raise if the slow vocabulary cannot be saved; log and
return `None` if the destination is not a directory; otherwise copy the
file unless source and destination resolve to the same absolute path, and
return the one-element tuple `(out_vocab_file,)`. -/
def save_vocabulary (os : OSModel) (vf : Option String)
    (save_directory : String) (pfx : Option String) : SaveOutcome :=
  if !canSaveSlowTokenizer vf then
    { result := .raised cannotSaveMsg, copied := none, logged := [] }
  else if !os.isdir save_directory then
    { result := .returnedNone, copied := none
      logged := ["Vocabulary path (" ++ save_directory ++ ") should be a directory"] }
  else
    let out_vocab_file := os.joinPath save_directory (prefixPart pfx ++ vocabFileName)
    let src := vf.getD ""
    if os.abspath src != os.abspath out_vocab_file then
      { result := .returned [out_vocab_file], copied := some (src, out_vocab_file)
        logged := [] }
    else
      { result := .returned [out_vocab_file], copied := none, logged := [] }

/- ------------------------------------------------------------------ -/
/- Concrete fixtures used to instantiate the theorems                  -/
/- ------------------------------------------------------------------ -/

/-- A concrete engine `encode`: one id per input, its byte length. -/
def encode0 : String → Bool → List Nat := fun s _ => [s.utf8ByteSize]

/-- A concrete tokenizer state with the default construction values. -/
def tok0 : Tokenizer := mkTok "<s>" "</s>" 1 2 true false

/-- A file system where every path is a directory and absolute paths are
the paths themselves. -/
def osPlain : OSModel :=
  { isdir := fun _ => true, abspath := fun p => p
    joinPath := fun a b => a ++ "/" ++ b }

/-- A file system where no path is a directory. -/
def osNoDir : OSModel :=
  { isdir := fun _ => false, abspath := fun p => p
    joinPath := fun a b => a ++ "/" ++ b }

/-- A file system where every path resolves to the same absolute path, so
source and destination of the copy always coincide. -/
def osCollapse : OSModel :=
  { isdir := fun _ => true, abspath := fun _ => "same"
    joinPath := fun a b => a ++ "/" ++ b }

/- ------------------------------------------------------------------ -/
/- Helper lemmas                                                       -/
/- ------------------------------------------------------------------ -/

lemma strMul_one (s : String) : strMul s 1 = s := by
  simp [strMul]

lemma strMul_pyBool (s : String) (b : Bool) :
    strMul s (pyBool b) = if b then s else "" := by
  cases b <;> simp [pyBool, strMul]

lemma everyOther_cons {α : Type} (a : α) (l : List α) :
    everyOther (a :: l) = a :: everyOther (l.drop 1) := by
  cases l <;> simp [everyOther]

/-- A role list accepted by the alternation check contains only `user` and
`assistant` roles. -/
theorem rolesValid_mem : ∀ (roles : List String), rolesValid roles = true →
    ∀ r ∈ roles, r = "user" ∨ r = "assistant"
  | [], _, r, hr => absurd hr (List.not_mem_nil r)
  | [a], h, r, hr => by
      simp only [rolesValid, everyOther, List.drop, List.all_cons, List.all_nil,
        Bool.and_true, Bool.true_and, beq_iff_eq] at h
      simp only [List.mem_singleton] at hr
      subst hr
      exact Or.inl h
  | a :: b :: rest, h, r, hr => by
      simp only [rolesValid, everyOther, List.drop] at h
      rw [everyOther_cons] at h
      simp only [List.all_cons, Bool.and_eq_true, beq_iff_eq] at h
      obtain ⟨⟨ha, hu⟩, hb, hv⟩ := h
      have hrest : rolesValid rest = true := by
        simp only [rolesValid, Bool.and_eq_true]
        exact ⟨hu, hv⟩
      rcases List.mem_cons.mp hr with rfl | hr'
      · exact Or.inl ha
      · rcases List.mem_cons.mp hr' with rfl | hr''
        · exact Or.inr hb
        · exact rolesValid_mem rest hrest r hr''

/-- On a message whose role is one of the three known ones, the loop body
succeeds and produces exactly the spec-side per-message ids. -/
lemma encodeDialogMessage_known (encode : String → Bool → List Nat)
    (t : Tokenizer) (m : Message)
    (h : m.role = "system" ∨ m.role = "user" ∨ m.role = "assistant") :
    encodeDialogMessage encode t m = some (perMessageIdsSpec encode t m) := by
  rcases h with h1 | h1 | h1 <;>
    simp [encodeDialogMessage, selectMessageParams, perMessageIdsSpec,
      roleStartText, roleEndText, roleStartToken, roleEndToken, h1]

/-- The accumulation loop, run over messages with known roles, returns the
accumulator followed by the concatenation of the per-message id
sequences in message order. -/
lemma buildLoop_eq_flatMap (encode : String → Bool → List Nat) (t : Tokenizer) :
    ∀ (msgs : List Message) (acc : List Nat),
      (∀ m ∈ msgs, m.role = "system" ∨ m.role = "user" ∨ m.role = "assistant") →
      buildLoop encode t msgs acc =
        some (acc ++ msgs.flatMap (perMessageIdsSpec encode t))
  | [], acc, _ => by simp [buildLoop]
  | m :: rest, acc, h => by
      have hm := h m (List.mem_cons_self m rest)
      have hrest : ∀ m' ∈ rest, m'.role = "system" ∨ m'.role = "user" ∨ m'.role = "assistant" :=
        fun m' hm' => h m' (List.mem_cons_of_mem m hm')
      rw [buildLoop, encodeDialogMessage_known encode t m hm]
      dsimp only
      rw [buildLoop_eq_flatMap encode t rest _ hrest]
      simp [List.flatMap_cons, List.append_assoc]

/-- After the preprocessing step the message list always starts with a
system message. -/
lemma messagesAfterDefault_head_system (conv : ChatConversation) :
    ∃ m rest, messagesAfterDefault conv = m :: rest ∧ m.role = "system" := by
  cases hneed : needsDefaultSystemPrompt conv with
  | true =>
    exact ⟨{ role := "system", message := DEFAULT_SYSTEM_PROMPT }, conv.messages,
      by simp [messagesAfterDefault, hneed], rfl⟩
  | false =>
    rcases hc : conv.messages with _ | ⟨m, rest⟩
    · simp [needsDefaultSystemPrompt, hc] at hneed
    · have hms : m.role = "system" := by
        simpa [needsDefaultSystemPrompt, hc] using hneed
      exact ⟨m, rest, by simp [messagesAfterDefault, hneed, hc], hms⟩

/-- When the alternation check passes, every message reaching the encoding
loop has one of the three known roles (the first is a system message, the
rest are user/assistant by `rolesValid_mem`). -/
lemma known_roles_of_valid (conv : ChatConversation)
    (h : rolesValid (messageRoles conv) = true) :
    ∀ m ∈ messagesAfterDefault conv,
      m.role = "system" ∨ m.role = "user" ∨ m.role = "assistant" := by
  obtain ⟨m0, rest, heq, hrole⟩ := messagesAfterDefault_head_system conv
  intro m hm
  rw [heq] at hm
  rcases List.mem_cons.mp hm with rfl | hm'
  · exact Or.inl hrole
  · have hmem : m.role ∈ messageRoles conv := by
      unfold messageRoles
      rw [heq]
      exact List.mem_map_of_mem Message.role hm'
    rcases rolesValid_mem _ h _ hmem with h1 | h1
    · exact Or.inr (Or.inl h1)
    · exact Or.inr (Or.inr h1)

/-- Claim C1: for every tokenizer state, `update_post_processor` builds the
single-sequence pattern as the bos segment (present only if
`add_bos_token`), then the first-sequence placeholder tagged with segment
id 0, then the eos segment (present only if `add_eos_token`); with both
flags true and tokens `<s>`/`</s>` the single pattern is
`<s>:0 $A:0 </s>:0` and the pair pattern is
`<s>:0 $A:0 </s>:0 <s>:1 $B:1 </s>:1`, and with both flags false the single
pattern is `$A:0`. -/
theorem update_post_processor_single_pattern :
    (∀ t : Tokenizer,
      (update_post_processor t).post_processor.single =
        (if t.add_bos_token then t.bos_token ++ ":0 " else "") ++ "$A:0" ++
          (if t.add_eos_token then " " ++ t.eos_token ++ ":0" else "")) ∧
    (update_post_processor (mkTok "<s>" "</s>" 1 2 true true)).post_processor.single =
      "<s>:0 $A:0 </s>:0" ∧
    (update_post_processor (mkTok "<s>" "</s>" 1 2 true true)).post_processor.pair =
      "<s>:0 $A:0 </s>:0 <s>:1 $B:1 </s>:1" ∧
    (∀ bos eos bosId eosId,
      (update_post_processor (mkTok bos eos bosId eosId false false)).post_processor.single =
        "$A:0") := by
  refine ⟨?_, by decide, by decide, ?_⟩
  · intro t
    simp only [update_post_processor, mkTemplate, strMul_pyBool]
  · intro bos eos bosId eosId
    simp [update_post_processor, mkTemplate, mkTok, strMul_pyBool,
      String.append_empty, String.empty_append]

/-- Claim C5: the special-token list built by `update_post_processor`
contains the bos pair exactly when `add_bos_token` is set and the eos pair
exactly when `add_eos_token` is set, the bos entry first when both are set,
and is empty when neither is set. -/
theorem update_post_processor_special_tokens :
    (∀ t : Tokenizer,
      (update_post_processor t).post_processor.special_tokens =
        (if t.add_bos_token then [(t.bos_token, t.bos_token_id)] else []) ++
          (if t.add_eos_token then [(t.eos_token, t.eos_token_id)] else [])) ∧
    (∀ bos eos bosId eosId,
      (update_post_processor (mkTok bos eos bosId eosId true true)).post_processor.special_tokens =
        [(bos, bosId), (eos, eosId)]) ∧
    (∀ bos eos bosId eosId,
      (update_post_processor (mkTok bos eos bosId eosId false false)).post_processor.special_tokens =
        []) := by
  refine ⟨?_, ?_, ?_⟩
  · intro t
    simp only [update_post_processor, mkTemplate]
    cases t.add_bos_token <;> cases t.add_eos_token <;> simp
  · intro bos eos bosId eosId
    simp [update_post_processor, mkTemplate, mkTok]
  · intro bos eos bosId eosId
    simp [update_post_processor, mkTemplate, mkTok]

/-- Claim C6: `update_post_processor` is idempotent — with unchanged flags
and tokens, calling it twice installs the identical template (the whole
tokenizer state after two calls equals the state after one). -/
theorem update_post_processor_idempotent :
    ∀ t : Tokenizer,
      update_post_processor (update_post_processor t) = update_post_processor t := by
  intro t
  rfl

/-- Claim C7: each `add_bos_token`/`add_eos_token` setter stores the new
boolean and re-invokes `update_post_processor`, so the installed
post-processor equals the template freshly derived from the instance's
current state — it is never stale. -/
theorem setters_reinstall_template :
    ∀ (t : Tokenizer) (value : Bool),
      (set_add_bos_token t value).add_bos_token = value ∧
      (set_add_bos_token t value).post_processor = mkTemplate (set_add_bos_token t value) ∧
      (set_add_eos_token t value).add_eos_token = value ∧
      (set_add_eos_token t value).post_processor = mkTemplate (set_add_eos_token t value) := by
  intro t value
  refine ⟨rfl, rfl, rfl, rfl⟩

/-- Claim C2: on every conversation that passes role validation,
`_build_conversation_input_ids` returns the concatenation, in message
order, of the per-message id sequences, where each message contributes its
role-specific start-token-id, then the engine encoding of
start-text + message text stripped of surrounding whitespace + end-text,
then its role-specific end-token-id. -/
theorem build_ids_concatenation (encode : String → Bool → List Nat)
    (t : Tokenizer) (conv : ChatConversation)
    (h : rolesValid (messageRoles conv) = true) :
    (build_conversation_input_ids encode t conv).2 =
      .ok ((messagesAfterDefault conv).flatMap (perMessageIdsSpec encode t)) := by
  have hk := known_roles_of_valid conv h
  unfold build_conversation_input_ids
  dsimp only
  rw [if_pos h, buildLoop_eq_flatMap encode t _ [] hk]
  simp

/-- Witness for C2 at the conversation `system "S", user "U1"` with the
concrete engine `encode0` and tokenizer `tok0`. -/
theorem build_ids_concatenation_witness :
    rolesValid (messageRoles
      { messages := [{ role := "system", message := "S" },
                     { role := "user", message := "U1" }] }) = true ∧
    (build_conversation_input_ids encode0 tok0
      { messages := [{ role := "system", message := "S" },
                     { role := "user", message := "U1" }] }).2 =
      .ok ((messagesAfterDefault
        { messages := [{ role := "system", message := "S" },
                       { role := "user", message := "U1" }] }).flatMap
          (perMessageIdsSpec encode0 tok0)) :=
  ⟨by decide, build_ids_concatenation encode0 tok0 _ (by decide)⟩

/-- Claim C3: when the conversation is empty or its first message is not a
system message, `_build_conversation_input_ids` prepends a system message
whose text is exactly the default system prompt (the verbatim constant),
before validating and encoding. -/
theorem build_prepends_default_system (encode : String → Bool → List Nat)
    (t : Tokenizer) (conv : ChatConversation)
    (h : conv.messages = [] ∨
      ∃ m rest, conv.messages = m :: rest ∧ m.role ≠ "system") :
    (build_conversation_input_ids encode t conv).1.messages =
      { role := "system",
        message := "You are a helpful, respectful and honest assistant. Always answer as helpfully as possible, while being safe. Your answers should not include any harmful, unethical, racist, sexist, toxic, dangerous, or illegal content. Please ensure that your responses are socially unbiased and positive in nature.\n\nIf a question does not make any sense, or is not factually coherent, explain why instead of answering something not correct. If you don\x27t know the answer to a question, please don\x27t share false information." } ::
        conv.messages := by
  have hneed : needsDefaultSystemPrompt conv = true := by
    rcases h with h | ⟨m, rest, heq, hne⟩
    · simp [needsDefaultSystemPrompt, h]
    · simp [needsDefaultSystemPrompt, heq, hne]
  show messagesAfterDefault conv = _
  rw [messagesAfterDefault, if_pos hneed]
  rfl

/-- Witness for C3 at the empty conversation. -/
theorem build_prepends_default_system_witness :
    (ChatConversation.messages { messages := [] } = [] ∨
      ∃ m rest, ChatConversation.messages { messages := [] } = m :: rest ∧
        m.role ≠ "system") ∧
    (build_conversation_input_ids encode0 tok0 { messages := [] }).1.messages =
      { role := "system",
        message := "You are a helpful, respectful and honest assistant. Always answer as helpfully as possible, while being safe. Your answers should not include any harmful, unethical, racist, sexist, toxic, dangerous, or illegal content. Please ensure that your responses are socially unbiased and positive in nature.\n\nIf a question does not make any sense, or is not factually coherent, explain why instead of answering something not correct. If you don\x27t know the answer to a question, please don\x27t share false information." } ::
        ChatConversation.messages { messages := [] } :=
  ⟨Or.inl rfl,
    build_prepends_default_system encode0 tok0 { messages := [] } (Or.inl rfl)⟩

/-- Claim C4: after the (possibly prepended) system message,
`_build_conversation_input_ids` raises the role-alternation `ValueError`
exactly when the roles at even positions among the remaining messages are
not all `user` or the roles at odd positions are not all `assistant`; in
particular `system` followed immediately by `assistant` fails. -/
theorem build_validation_error_iff :
    (∀ (encode : String → Bool → List Nat) (t : Tokenizer)
        (conv : ChatConversation),
      (build_conversation_input_ids encode t conv).2 =
          .valueError alternationErrorMsg ↔
        ¬((everyOther (messageRoles conv)).all (fun role => role == "user") = true ∧
          (everyOther ((messageRoles conv).drop 1)).all
            (fun role => role == "assistant") = true)) ∧
    (∀ (encode : String → Bool → List Nat) (t : Tokenizer),
      (build_conversation_input_ids encode t
        { messages := [{ role := "system", message := "S" },
                       { role := "assistant", message := "A1" }] }).2 =
        .valueError alternationErrorMsg) := by
  constructor
  · intro encode t conv
    unfold build_conversation_input_ids
    dsimp only
    cases hb : rolesValid (messageRoles conv) with
    | false =>
      have hnot : ¬((everyOther (messageRoles conv)).all (fun role => role == "user") = true ∧
          (everyOther ((messageRoles conv).drop 1)).all
            (fun role => role == "assistant") = true) := by
        intro hand
        rw [rolesValid, hand.1, hand.2] at hb
        simp at hb
      rw [if_neg (by simp)]
      exact iff_of_true rfl hnot
    | true =>
      have hAB : (everyOther (messageRoles conv)).all (fun role => role == "user") = true ∧
          (everyOther ((messageRoles conv).drop 1)).all
            (fun role => role == "assistant") = true := by
        rw [rolesValid] at hb
        exact (Bool.and_eq_true _ _).mp hb
      rw [if_pos rfl]
      cases hloop : buildLoop encode t (messagesAfterDefault conv) [] with
      | none =>
        exact iff_of_false (by simp) (fun hn => hn hAB)
      | some ids =>
        exact iff_of_false (by simp) (fun hn => hn hAB)
  · intro encode t
    rfl

/-- Claim C9: `_build_conversation_input_ids` mutates the caller's
conversation — when the default system message is prepended it becomes the
head of the caller's message list, and the mutation persists even when the
role validation then raises. -/
theorem build_mutation_persists :
    (∀ (encode : String → Bool → List Nat) (t : Tokenizer)
        (conv : ChatConversation),
      needsDefaultSystemPrompt conv = true →
      (build_conversation_input_ids encode t conv).1.messages =
        { role := "system", message := DEFAULT_SYSTEM_PROMPT } :: conv.messages) ∧
    (∀ (encode : String → Bool → List Nat) (t : Tokenizer),
      (build_conversation_input_ids encode t
        { messages := [{ role := "assistant", message := "A1" }] }).2 =
          .valueError alternationErrorMsg ∧
      (build_conversation_input_ids encode t
        { messages := [{ role := "assistant", message := "A1" }] }).1.messages =
        { role := "system", message := DEFAULT_SYSTEM_PROMPT } ::
          [{ role := "assistant", message := "A1" }]) := by
  constructor
  · intro encode t conv hneed
    show messagesAfterDefault conv = _
    rw [messagesAfterDefault, if_pos hneed]
  · intro encode t
    exact ⟨rfl, rfl⟩

/-- Witness for C9 at the empty conversation. -/
theorem build_mutation_persists_witness :
    needsDefaultSystemPrompt { messages := [] } = true ∧
    (build_conversation_input_ids encode0 tok0 { messages := [] }).1.messages =
      { role := "system", message := DEFAULT_SYSTEM_PROMPT } ::
        ChatConversation.messages { messages := [] } :=
  ⟨by decide, build_mutation_persists.1 encode0 tok0 { messages := [] } (by decide)⟩

/-- Claim C8: `save_vocabulary` raises a `ValueError` with an explicit
message whenever the instance has no associated source vocabulary file;
when a source exists but the destination is not a directory it logs an
error and returns `None` without writing; otherwise it returns the tuple
containing the output vocabulary file path. -/
theorem save_vocabulary_error_handling :
    (∀ (os : OSModel) (vf : Option String) (dir : String) (pfx : Option String),
      canSaveSlowTokenizer vf = false →
      save_vocabulary os vf dir pfx =
        { result := .raised cannotSaveMsg, copied := none, logged := [] }) ∧
    (∀ (os : OSModel) (vf : Option String) (dir : String) (pfx : Option String),
      canSaveSlowTokenizer vf = true → os.isdir dir = false →
      save_vocabulary os vf dir pfx =
        { result := .returnedNone, copied := none
          logged := ["Vocabulary path (" ++ dir ++ ") should be a directory"] }) ∧
    (∀ (os : OSModel) (vf : Option String) (dir : String) (pfx : Option String),
      canSaveSlowTokenizer vf = true → os.isdir dir = true →
      (save_vocabulary os vf dir pfx).result =
        .returned [os.joinPath dir (prefixPart pfx ++ vocabFileName)]) := by
  refine ⟨?_, ?_, ?_⟩
  · intro os vf dir pfx h
    rw [save_vocabulary, if_pos (by simp [h])]
  · intro os vf dir pfx h hdir
    rw [save_vocabulary, if_neg (by simp [h]), if_pos (by simp [hdir])]
  · intro os vf dir pfx h hdir
    rw [save_vocabulary, if_neg (by simp [h]), if_neg (by simp [hdir])]
    dsimp only
    split <;> rfl

/-- Witness for C8: the three branches at concrete inputs — no vocabulary
file, a vocabulary file with a non-directory destination, and a vocabulary
file with a directory destination. -/
theorem save_vocabulary_error_handling_witness :
    (canSaveSlowTokenizer none = false ∧
      save_vocabulary osPlain none "d" none =
        { result := .raised cannotSaveMsg, copied := none, logged := [] }) ∧
    (canSaveSlowTokenizer (some "v.model") = true ∧ osNoDir.isdir "d" = false ∧
      save_vocabulary osNoDir (some "v.model") "d" none =
        { result := .returnedNone, copied := none
          logged := ["Vocabulary path (" ++ "d" ++ ") should be a directory"] }) ∧
    (canSaveSlowTokenizer (some "v.model") = true ∧ osPlain.isdir "d" = true ∧
      (save_vocabulary osPlain (some "v.model") "d" none).result =
        .returned [osPlain.joinPath "d" (prefixPart none ++ vocabFileName)]) :=
  ⟨⟨by decide, save_vocabulary_error_handling.1 osPlain none "d" none (by decide)⟩,
   ⟨by decide, by decide,
     save_vocabulary_error_handling.2.1 osNoDir (some "v.model") "d" none
       (by decide) (by decide)⟩,
   ⟨by decide, by decide,
     save_vocabulary_error_handling.2.2 osPlain (some "v.model") "d" none
       (by decide) (by decide)⟩⟩

/-- Claim C10: when the source vocabulary file and the destination resolve
to the same absolute path, `save_vocabulary` performs no copy yet still
returns the tuple containing the destination path — the same return value
as the successful-copy case, which does copy. -/
theorem save_vocabulary_same_path_no_copy :
    (∀ (os : OSModel) (vf : Option String) (dir : String) (pfx : Option String),
      canSaveSlowTokenizer vf = true → os.isdir dir = true →
      os.abspath (vf.getD "") =
          os.abspath (os.joinPath dir (prefixPart pfx ++ vocabFileName)) →
      save_vocabulary os vf dir pfx =
        { result := .returned [os.joinPath dir (prefixPart pfx ++ vocabFileName)]
          copied := none, logged := [] }) ∧
    (∀ (os : OSModel) (vf : Option String) (dir : String) (pfx : Option String),
      canSaveSlowTokenizer vf = true → os.isdir dir = true →
      os.abspath (vf.getD "") ≠
          os.abspath (os.joinPath dir (prefixPart pfx ++ vocabFileName)) →
      save_vocabulary os vf dir pfx =
        { result := .returned [os.joinPath dir (prefixPart pfx ++ vocabFileName)]
          copied := some (vf.getD "", os.joinPath dir (prefixPart pfx ++ vocabFileName))
          logged := [] }) := by
  constructor
  · intro os vf dir pfx h hdir heq
    rw [save_vocabulary, if_neg (by simp [h]), if_neg (by simp [hdir])]
    dsimp only
    rw [if_neg (by simp [heq])]
  · intro os vf dir pfx h hdir hne
    rw [save_vocabulary, if_neg (by simp [h]), if_neg (by simp [hdir])]
    dsimp only
    rw [if_pos (by simp [hne])]

/-- Witness for C10: under `osCollapse` every path resolves to the same
absolute path, so the copy is skipped; under `osPlain` the paths differ,
the copy happens, and the returned tuple is the same. -/
theorem save_vocabulary_same_path_no_copy_witness :
    (canSaveSlowTokenizer (some "v.model") = true ∧
      osCollapse.isdir "d" = true ∧
      osCollapse.abspath ((some "v.model").getD "") =
        osCollapse.abspath (osCollapse.joinPath "d" (prefixPart none ++ vocabFileName)) ∧
      save_vocabulary osCollapse (some "v.model") "d" none =
        { result := .returned [osCollapse.joinPath "d" (prefixPart none ++ vocabFileName)]
          copied := none, logged := [] }) ∧
    (canSaveSlowTokenizer (some "v.model") = true ∧
      osPlain.isdir "d" = true ∧
      osPlain.abspath ((some "v.model").getD "") ≠
        osPlain.abspath (osPlain.joinPath "d" (prefixPart none ++ vocabFileName)) ∧
      save_vocabulary osPlain (some "v.model") "d" none =
        { result := .returned [osPlain.joinPath "d" (prefixPart none ++ vocabFileName)]
          copied := some ((some "v.model").getD "",
            osPlain.joinPath "d" (prefixPart none ++ vocabFileName))
          logged := [] }) :=
  ⟨⟨by decide, by decide, by decide,
     save_vocabulary_same_path_no_copy.1 osCollapse (some "v.model") "d" none
       (by decide) (by decide) (by decide)⟩,
   ⟨by decide, by decide, by decide,
     save_vocabulary_same_path_no_copy.2 osPlain (some "v.model") "d" none
       (by decide) (by decide) (by decide)⟩⟩

end LlamaFast
